import Mathlib

/-!
Verification development for the HireSense recruitment pipeline
(jd_optimizer, cv_grader, bias_agent, persona_agent, explainability_agent,
feedback_agent, sql_agent, supervisor, app).

The Python agents are shallowly embedded: pandas rows become Lean structures,
scores become rationals, external ML capabilities (spaCy NER, sentence
embeddings, sentiment, T5 rephrasing, SHAP) become opaque function parameters,
and fallible steps return Except.  Each claim of the specification is settled
by a theorem about these definitions.
-/

namespace HireSense

/-! ## Text primitives shared by several agents -/

/-- Lowercase a character list, as Python str.lower does on the ASCII text
the agents handle (Char.toLower maps A-Z to a-z and fixes the rest). -/
def lowerL (l : List Char) : List Char := l.map Char.toLower

/-- Substring containment, modelling the Python `needle in haystack` test on
strings: some contiguous slice of the haystack equals the needle. -/
def containsL (n : List Char) : List Char → Bool
  | [] => n.isEmpty
  | c :: rest => n.isPrefixOf (c :: rest) || containsL n rest

/-- Helper for pyCount: scans the haystack left to right; the counter `skip`
holds how many characters of an already-counted occurrence remain to be
consumed, so occurrences are counted non-overlapping, exactly as Python
str.count does for a nonempty needle. -/
def pyCountAux (n : List Char) : List Char → Nat → Nat
  | [], _ => 0
  | c :: rest, 0 =>
      if n.isPrefixOf (c :: rest) then pyCountAux n rest (n.length - 1) + 1
      else pyCountAux n rest 0
  | _ :: rest, skip + 1 => pyCountAux n rest skip

/-- Number of non-overlapping occurrences of a nonempty needle, modelling
Python str.count. -/
def pyCount (n : List Char) (hay : List Char) : Nat := pyCountAux n hay 0

/-! ## feedback_agent.py -/

/-- A pandas cell holding a candidate explanation: a string, a float (pandas
parses numeric text as a number; a missing value is the float NaN), or NaN. -/
inductive ExplCell where
  | strv (s : String)
  | numv (q : ℚ)
  | nan
deriving DecidableEq, Repr

/-- Adjustment rule of feedback_agent.feedback_adjust: 0.05 when the
explanation is a string whose lowercasing contains "strong match", else
-0.02 (isinstance(explanation, str) fails for NaN and numbers). -/
def feedback_adjust (explanation : ExplCell) : ℚ :=
  match explanation with
  | .strv s =>
      if containsL ("strong match".toList) (lowerL s.toList) then 0.05 else -0.02
  | _ => -0.02

/-- Input row of the feedback stage (explainability_results.csv): the columns
adjust_candidate_scores requires. -/
structure FbRowIn where
  candidate_filename : String
  grade_score : ℚ
  persona_fit_score : ℚ
  explanation : ExplCell
deriving DecidableEq, Repr

/-- Output row of the feedback stage with the three appended columns. -/
structure FbRowOut where
  candidate_filename : String
  grade_score : ℚ
  persona_fit_score : ℚ
  explanation : ExplCell
  composite_score : ℚ
  feedback_adjustment : ℚ
  updated_score : ℚ
deriving DecidableEq, Repr

/-- Per-row content of feedback_agent.adjust_candidate_scores:
composite_score = 0.6 * grade_score + 0.4 * persona_fit_score,
feedback_adjustment from the explanation, updated_score their sum. -/
def adjust_row (r : FbRowIn) : FbRowOut :=
  { candidate_filename := r.candidate_filename
    grade_score := r.grade_score
    persona_fit_score := r.persona_fit_score
    explanation := r.explanation
    composite_score := 0.6 * r.grade_score + 0.4 * r.persona_fit_score
    feedback_adjustment := feedback_adjust r.explanation
    updated_score :=
      (0.6 * r.grade_score + 0.4 * r.persona_fit_score) + feedback_adjust r.explanation }

/-- feedback_agent.adjust_candidate_scores applied to every row of the input
table (the pandas column assignments act row-wise). -/
def adjust_candidate_scores (rows : List FbRowIn) : List FbRowOut :=
  rows.map adjust_row

/-- C1: for every candidate row whose explanation is present as a string, the
feedback stage yields composite_score = 0.6 grade + 0.4 persona, a feedback
adjustment of +0.05 exactly when the lowercased explanation contains
"strong match" and -0.02 otherwise, updated_score = composite + adjustment,
and the adjustment never takes a value outside those two. -/
theorem C1_feedback_adjustment (rows : List FbRowIn) (out : FbRowOut)
    (hmem : out ∈ adjust_candidate_scores rows) (s : String)
    (hexp : out.explanation = ExplCell.strv s) :
    out.composite_score = 0.6 * out.grade_score + 0.4 * out.persona_fit_score ∧
    out.feedback_adjustment =
      (if containsL ("strong match".toList) (lowerL s.toList) then (0.05 : ℚ) else -0.02) ∧
    out.updated_score = out.composite_score + out.feedback_adjustment ∧
    (out.feedback_adjustment = 0.05 ∨ out.feedback_adjustment = -0.02) := by
  rcases List.mem_map.1 hmem with ⟨r, _, rfl⟩
  refine ⟨rfl, ?_, rfl, ?_⟩
  · have h : r.explanation = ExplCell.strv s := hexp
    simp [adjust_row, feedback_adjust, h]
  · rcases hre : r.explanation with t | q | _
    · simp only [adjust_row, feedback_adjust, hre]
      by_cases h : containsL ("strong match".toList) (lowerL t.toList)
      · exact Or.inl (if_pos h)
      · exact Or.inr (if_neg h)
    · right; simp [adjust_row, feedback_adjust, hre]
    · right; simp [adjust_row, feedback_adjust, hre]

/-- Concrete input row exercising the positive branch of the feedback rule. -/
def c1row : FbRowIn :=
  { candidate_filename := "cv1.pdf"
    grade_score := 1/2
    persona_fit_score := 1/4
    explanation := ExplCell.strv "Strong Match on both features" }

/-- Witness for C1 at a concrete row containing "Strong Match". -/
theorem C1_feedback_adjustment_witness :
    (adjust_row c1row).composite_score =
      0.6 * (adjust_row c1row).grade_score + 0.4 * (adjust_row c1row).persona_fit_score ∧
    (adjust_row c1row).feedback_adjustment =
      (if containsL ("strong match".toList)
          (lowerL "Strong Match on both features".toList) then (0.05 : ℚ) else -0.02) ∧
    (adjust_row c1row).updated_score =
      (adjust_row c1row).composite_score + (adjust_row c1row).feedback_adjustment ∧
    ((adjust_row c1row).feedback_adjustment = 0.05 ∨
      (adjust_row c1row).feedback_adjustment = -0.02) :=
  C1_feedback_adjustment [c1row] (adjust_row c1row) (by simp [adjust_candidate_scores])
    "Strong Match on both features" rfl

/-- C10: the feedback stage is total: it produces one output row per input
row, and any row whose explanation cell is not a string (NaN or numeric)
receives feedback_adjustment = -0.02, with updated_score still defined as
composite_score plus that adjustment. -/
theorem C10_nonstring_explanation (rows : List FbRowIn) :
    (adjust_candidate_scores rows).length = rows.length ∧
    ∀ out ∈ adjust_candidate_scores rows,
      (∀ s : String, out.explanation ≠ ExplCell.strv s) →
      out.feedback_adjustment = -0.02 ∧
      out.updated_score = out.composite_score + (-0.02 : ℚ) := by
  refine ⟨List.length_map _ _, ?_⟩
  intro out hmem hns
  rcases List.mem_map.1 hmem with ⟨r, _, rfl⟩
  rcases hre : r.explanation with t | q | _
  · exact absurd (show (adjust_row r).explanation = ExplCell.strv t from hre) (by simpa using hns t)
  · constructor <;> simp [adjust_row, feedback_adjust, hre]
  · constructor <;> simp [adjust_row, feedback_adjust, hre]

/-- Concrete feedback-stage row whose explanation cell is NaN. -/
def c10row : FbRowIn :=
  { candidate_filename := "cv2.pdf"
    grade_score := 1/2
    persona_fit_score := 1/4
    explanation := ExplCell.nan }

/-- Witness for C10 at a row with a NaN explanation cell. -/
theorem C10_nonstring_explanation_witness :
    (adjust_candidate_scores [c10row]).length = 1 ∧
    (adjust_row c10row).feedback_adjustment = -0.02 ∧
    (adjust_row c10row).updated_score = (adjust_row c10row).composite_score + (-0.02 : ℚ) := by
  have h := C10_nonstring_explanation [c10row]
  exact ⟨h.1, h.2 (adjust_row c10row) (by simp [adjust_candidate_scores])
    (by intro s; simp [c10row, adjust_row])⟩

/-! ## persona_agent.py -/

/-- Fixed soft-skill vocabulary SOFT_SKILLS_KEYWORDS of persona_agent.py
(written there as a Python set; only counting over all members is used, so
the listing order is irrelevant). -/
def SOFT_SKILLS_KEYWORDS : List String :=
  ["team", "collaborative", "leader", "innovative", "adaptable", "communicative", "proactive"]

/-- Total number of raw substring occurrences of the soft-skill keywords in
the lowercased CV text, per compute_persona_fit. -/
def keyword_count (cv_text : String) : Nat :=
  (SOFT_SKILLS_KEYWORDS.map (fun w => pyCount w.toList (lowerL cv_text.toList))).sum

/-- Keyword count scaled into 0..1 exactly as compute_persona_fit does:
min(keyword_count / 20, 1.0). -/
def soft_score (cv_text : String) : ℚ :=
  min ((keyword_count cv_text : ℚ) / 20) 1

/-- persona_agent.compute_persona_fit, with the external sentiment capability
made explicit: it returns a label and a score, and the positive score is the
score when the label is "POSITIVE" and 0 otherwise; the result is
0.7 * positive score + 0.3 * soft score. -/
def compute_persona_fit (label : String) (score : ℚ) (cv_text : String) : ℚ :=
  let positive_score : ℚ := if label = "POSITIVE" then score else 0
  0.7 * positive_score + 0.3 * soft_score cv_text

/-- The CV text of Scenario A. -/
def scenarioACv : String := "Experienced team leader, proactive and collaborative"

/-- C2 counterexample: on the Scenario A CV text the code counts 4 keyword
occurrences ("team", "leader", "proactive", "collaborative" - the claim
forgets that "leader" is in the vocabulary), so soft_score is 4/20 = 0.2
and not 3/20 = 0.15. -/
theorem C2_counterexample :
    keyword_count scenarioACv = 4 ∧
    soft_score scenarioACv = 1/5 ∧ ((1 : ℚ)/5 ≠ 3/20) := by
  refine ⟨by decide, ?_, by norm_num⟩
  have h : keyword_count scenarioACv = 4 := by decide
  rw [soft_score, h]
  norm_num

/-- C2 amended: on the Scenario A CV text the keyword count is 4 (adding
"leader" to the three terms the claim lists), soft_score = 4/20 = 1/5, and
for every sentiment outcome the persona fit score is
0.7 * positive-sentiment score + 0.3 * (1/5), the positive score being 0
when the label is not "POSITIVE". -/
theorem C2_scenarioA_persona_fit (label : String) (score : ℚ) :
    keyword_count scenarioACv = 4 ∧
    soft_score scenarioACv = 1/5 ∧
    compute_persona_fit label score scenarioACv =
      0.7 * (if label = "POSITIVE" then score else 0) + 0.3 * (1/5 : ℚ) := by
  have h : keyword_count scenarioACv = 4 := by decide
  have hs : soft_score scenarioACv = 1/5 := by rw [soft_score, h]; norm_num
  exact ⟨h, hs, by rw [compute_persona_fit, hs]⟩

/-! ## sql_agent.py: persistence and threshold selection -/

/-- sql_agent.SQLiteMemoryAgent.query_selected_candidates: SELECT * FROM
Candidates WHERE updated_score >= threshold.  The persisted rows are the
feedback-stage output rows (insert_candidates inserts every row of the
feedback CSV, renaming candidate_filename to candidate_id, which leaves
updated_score untouched). -/
def query_selected_candidates (rows : List FbRowOut) (score_threshold : ℚ) : List FbRowOut :=
  rows.filter (fun r => decide (score_threshold ≤ r.updated_score))

/-- Concrete candidate with the lowest possible grade (cosine similarity -1)
and no persona fit, whose feedback-stage updated_score is negative. -/
def c3row : FbRowIn :=
  { candidate_filename := "cv4.pdf"
    grade_score := -1
    persona_fit_score := 0
    explanation := ExplCell.strv "weak" }

/-- C3 counterexample: a candidate built by the feedback stage from
grade_score = -1 (cosine similarity admits -1) and persona_fit_score = 0
has updated_score = -0.62, so selection at threshold 0 returns the empty
set even though one candidate was ingested - threshold 0 does not select
everyone. -/
theorem C3_counterexample :
    query_selected_candidates (adjust_candidate_scores [c3row]) 0 = [] ∧
    (adjust_candidate_scores [c3row]).length = 1 := by
  constructor
  · have hfa : feedback_adjust (ExplCell.strv "weak") = -0.02 := rfl
    have h1 : (adjust_row c3row).updated_score = -31/50 := by
      norm_num [adjust_row, c3row, hfa]
    norm_num [query_selected_candidates, adjust_candidate_scores, List.filter, h1]
  · rfl

/-- C3 amended: selection is monotonically non-increasing in the threshold;
selection at threshold 0 contains exactly the persisted candidates whose
updated_score is nonnegative - in any set, mixed signs included, every
nonnegative-score row is selected and every selected row has a nonnegative
score - so it returns the whole persisted set exactly when no updated_score
is negative; and any threshold strictly above every updated_score selects
nobody. -/
theorem C3_selection_monotone (rows : List FbRowOut) (t1 t2 t : ℚ) (h12 : t1 ≤ t2) :
    (∀ r ∈ query_selected_candidates rows t2, r ∈ query_selected_candidates rows t1) ∧
    (∀ r, r ∈ query_selected_candidates rows 0 ↔ r ∈ rows ∧ 0 ≤ r.updated_score) ∧
    (query_selected_candidates rows 0 = rows ↔ ∀ r ∈ rows, 0 ≤ r.updated_score) ∧
    ((∀ r ∈ rows, r.updated_score < t) → query_selected_candidates rows t = []) := by
  refine ⟨?_, ?_, ?_, ?_⟩
  · intro r hr
    rcases List.mem_filter.1 hr with ⟨hmem, hle⟩
    exact List.mem_filter.2 ⟨hmem, by
      simp only [decide_eq_true_eq] at hle ⊢
      exact le_trans h12 hle⟩
  · intro r
    rw [query_selected_candidates, List.mem_filter]
    simp
  · rw [query_selected_candidates, List.filter_eq_self]
    constructor
    · intro h r hr
      simpa using h r hr
    · intro h r hr
      simpa using h r hr
  · intro hall
    apply List.filter_eq_nil_iff.2
    intro r hr
    simpa using not_le.2 (hall r hr)

/-- Witness for C3 at a mixed-sign two-row store (one positive and one
negative updated_score) and thresholds 0 ≤ 1 ≤ 2. -/
theorem C3_selection_monotone_witness :
    (∀ r ∈ query_selected_candidates
        (adjust_candidate_scores [c1row, c3row]) 1,
      r ∈ query_selected_candidates (adjust_candidate_scores [c1row, c3row]) 0) ∧
    (∀ r, r ∈ query_selected_candidates (adjust_candidate_scores [c1row, c3row]) 0 ↔
      r ∈ adjust_candidate_scores [c1row, c3row] ∧ 0 ≤ r.updated_score) ∧
    (query_selected_candidates (adjust_candidate_scores [c1row, c3row]) 0 =
        adjust_candidate_scores [c1row, c3row] ↔
      ∀ r ∈ adjust_candidate_scores [c1row, c3row], 0 ≤ r.updated_score) ∧
    ((∀ r ∈ adjust_candidate_scores [c1row, c3row], r.updated_score < 2) →
      query_selected_candidates (adjust_candidate_scores [c1row, c3row]) 2 = []) :=
  C3_selection_monotone (adjust_candidate_scores [c1row, c3row]) 0 1 2 (by norm_num)

/-! ## bias_agent.py: detection -/

/-- Word characters of the regex \w on the ASCII texts handled here:
letters, digits and underscore. -/
def isWordChar (c : Char) : Bool := c.isAlphanum || c = '_'

/-- Helper for charRuns: acc accumulates (reversed) the current run of
characters satisfying p; a character failing p closes the run. -/
def runsAux (p : Char → Bool) : List Char → List Char → List (List Char)
  | acc, [] => if acc.isEmpty then [] else [acc.reverse]
  | acc, c :: rest =>
      if p c then runsAux p (c :: acc) rest
      else if acc.isEmpty then runsAux p [] rest
      else acc.reverse :: runsAux p [] rest

/-- Maximal nonempty runs of characters satisfying p, in order. -/
def charRuns (p : Char → Bool) (l : List Char) : List (List Char) := runsAux p [] l

/-- The token list re.findall(r'\w+', text.lower()) of detect_bias. -/
def pyWords (text : String) : List (List Char) := charRuns isWordChar (lowerL text.toList)

/-- Fixed lexicon BIASED_TERMS of bias_agent.py.  In the source it is a
Python set, so the order in which detect_bias iterates over it is
unspecified; the theorems below therefore compare flag collections as
finite sets. -/
def BIASED_TERMS : List String :=
  ["ninja", "rockstar", "guru", "aggressive", "whiz", "bombastic", "alpha", "dominant"]

/-- Core of bias_agent.detect_bias over an explicit lexicon listing and an
explicit token list: the terms of the lexicon that occur verbatim among the
tokens (Python term in words is list membership, hence whole-word match). -/
def detect_bias_over (lexicon : List String) (words : List (List Char)) : List String :=
  lexicon.filter (fun term => decide (term.toList ∈ words))

/-- bias_agent.detect_bias: whole-word case-insensitive match of the fixed
lexicon against the tokenized lowercased text. -/
def detect_bias (text : String) : List String :=
  detect_bias_over BIASED_TERMS (pyWords text)

/-- C7: bias detection flags form a subset of the fixed lexicon; a term is
flagged exactly when it is a lexicon member occurring as a whole word of
the lowercased text (case-insensitive whole-word matching); the flag set
does not depend on the order in which lexicon terms are examined (any
permutation of the lexicon yields the same set) nor on the order or
multiplicity of the scanned words; and detection is a pure function of the
text, so running it twice on the same text yields the same flag set. -/
theorem C7_detect_bias (text : String) (lex : List String) (ws : List (List Char))
    (hperm : lex.Perm BIASED_TERMS)
    (hws : ∀ w, w ∈ ws ↔ w ∈ pyWords text) :
    (∀ t ∈ detect_bias text, t ∈ BIASED_TERMS) ∧
    (∀ t, t ∈ detect_bias text ↔ t ∈ BIASED_TERMS ∧ t.toList ∈ pyWords text) ∧
    (detect_bias_over lex (pyWords text)).toFinset = (detect_bias text).toFinset ∧
    detect_bias_over BIASED_TERMS ws = detect_bias text ∧
    detect_bias text = detect_bias text := by
  refine ⟨?_, ?_, ?_, ?_, rfl⟩
  · intro t ht
    exact (List.mem_filter.1 ht).1
  · intro t
    constructor
    · intro ht
      rcases List.mem_filter.1 ht with ⟨h1, h2⟩
      exact ⟨h1, by simpa using h2⟩
    · intro ht
      exact List.mem_filter.2 ⟨ht.1, by simpa using ht.2⟩
  · apply List.toFinset_eq_iff_perm_dedup.2
    exact ((hperm.filter _).dedup)
  · unfold detect_bias_over detect_bias
    apply List.filter_congr
    intro t _
    simp [hws]

/-- Witness for C7 on a concrete CV text, a reversed lexicon and a reversed
word list. -/
theorem C7_detect_bias_witness :
    (∀ t ∈ detect_bias "A rockstar NINJA, not aggressive.", t ∈ BIASED_TERMS) ∧
    (∀ t, t ∈ detect_bias "A rockstar NINJA, not aggressive." ↔
      t ∈ BIASED_TERMS ∧ t.toList ∈ pyWords "A rockstar NINJA, not aggressive.") ∧
    (detect_bias_over BIASED_TERMS.reverse
        (pyWords "A rockstar NINJA, not aggressive.")).toFinset =
      (detect_bias "A rockstar NINJA, not aggressive.").toFinset ∧
    detect_bias_over BIASED_TERMS (pyWords "A rockstar NINJA, not aggressive.").reverse =
      detect_bias "A rockstar NINJA, not aggressive." ∧
    detect_bias "A rockstar NINJA, not aggressive." =
      detect_bias "A rockstar NINJA, not aggressive." :=
  C7_detect_bias "A rockstar NINJA, not aggressive." BIASED_TERMS.reverse
    (pyWords "A rockstar NINJA, not aggressive.").reverse
    (List.reverse_perm BIASED_TERMS) (fun _ => List.mem_reverse)

/-! ## bias_agent.py: anonymization -/

/-- One spaCy entity span: character offsets into the original text plus the
entity label. -/
structure Ent where
  start_char : Nat
  end_char : Nat
  label : String
deriving DecidableEq, Repr

/-- The redaction marker inserted by anonymize_text. -/
def REDACTED : List Char := "[REDACTED]".toList

/-- One replacement step of anonymize_text: a PERSON span is replaced by the
marker, any other entity leaves the text alone. -/
def redact_step (t : List Char) (e : Ent) : List Char :=
  if e.label = "PERSON" then t.take e.start_char ++ REDACTED ++ t.drop e.end_char else t

/-- The sorting of anonymize_text: sorted(doc.ents, key=start_char,
reverse=True), a stable descending sort on start offsets. -/
def sortEntsDesc (ents : List Ent) : List Ent :=
  List.insertionSort (fun a b => b.start_char ≤ a.start_char) ents

/-- bias_agent.anonymize_text with the external NER capability made
explicit: the entity spans found by the model are an argument; PERSON spans
are replaced from the end of the text backward. -/
def anonymize_text (text : List Char) (ents : List Ent) : List Char :=
  (sortEntsDesc ents).foldl redact_step text

/-- C8 counterexample: the first pass turns "John Smith" into exactly the
marker; if the entity capability then reports a PERSON span over part of
the already-anonymized text, the second pass mangles the marker itself -
the code has no safeguard against redacting the marker. -/
theorem C8_counterexample :
    anonymize_text ("John Smith".toList) [⟨0, 10, "PERSON"⟩] = REDACTED ∧
    anonymize_text REDACTED [⟨0, 5, "PERSON"⟩] ≠ REDACTED := by
  constructor <;> decide

/-- A slice taken entirely inside the left part of an append ignores the
right part. -/
lemma slice_append_of_le (a b : List Char) (j n : Nat) (h : j + n ≤ a.length) :
    ((a ++ b).drop j).take n = (a.drop j).take n := by
  have h1 : j ≤ a.length := le_trans (Nat.le_add_right _ _) h
  have h2 : n ≤ (a.drop j).length := by rw [List.length_drop]; omega
  rw [List.drop_append_eq_append_drop, Nat.sub_eq_zero_of_le h1, List.drop_zero,
    List.take_append_eq_append_take, Nat.sub_eq_zero_of_le h2, List.take_zero,
    List.append_nil]

/-- A slice taken entirely inside a prefix of a list equals the slice of the
list itself. -/
lemma slice_take_of_le (t : List Char) (s j n : Nat) (h : j + n ≤ s) :
    ((t.take s).drop j).take n = (t.drop j).take n := by
  rw [List.drop_take, List.take_take]
  congr 1
  omega

/-- Folding redact_step over entities none of which is a PERSON leaves the
text unchanged. -/
lemma foldl_no_person : ∀ (l : List Ent) (t : List Char),
    (∀ e ∈ l, e.label ≠ "PERSON") → l.foldl redact_step t = t := by
  intro l
  induction l with
  | nil => intro t _; rfl
  | cons e rest ih =>
    intro t h
    rw [List.foldl_cons, redact_step, if_neg (h e (List.mem_cons_self e rest))]
    exact ih t (fun f hf => h f (List.mem_cons_of_mem e hf))

/-- Marker preservation through the backward replacement fold: if the
entities are listed in descending start order with pairwise disjoint spans,
every span well-formed, and no span overlapping the 10-character marker
occurrence at offset j, then some occurrence of the marker survives the
whole fold. -/
lemma redact_fold_marker : ∀ (l : List Ent) (t : List Char) (j : Nat),
    l.Pairwise (fun a b => b.end_char ≤ a.start_char) →
    (∀ e ∈ l, e.start_char ≤ e.end_char) →
    (∀ e ∈ l, e.end_char ≤ j ∨ j + 10 ≤ e.start_char) →
    j + 10 ≤ t.length →
    (t.drop j).take 10 = REDACTED →
    ∃ k, k + 10 ≤ (l.foldl redact_step t).length ∧
      ((l.foldl redact_step t).drop k).take 10 = REDACTED := by
  intro l
  induction l with
  | nil => intro t j _ _ _ hlen hm; exact ⟨j, hlen, hm⟩
  | cons e rest ih =>
    intro t j hpw hse hdisj hlen hm
    rw [List.foldl_cons]
    have hRED : REDACTED.length = 10 := rfl
    by_cases hp : e.label = "PERSON"
    · have hstep : redact_step t e = t.take e.start_char ++ REDACTED ++ t.drop e.end_char :=
        if_pos hp
      rcases hdisj e (List.mem_cons_self e rest) with hright | hleft
      · -- the span lies left of the marker: the marker moves to offset
        -- e.start_char + 10 + (j - e.end_char)
        have hse1 : e.start_char ≤ e.end_char := hse e (List.mem_cons_self e rest)
        have hslen : e.start_char ≤ t.length := by omega
        have htakelen : (t.take e.start_char).length = e.start_char := by
          rw [List.length_take]; omega
        have hlen2 : (redact_step t e).length =
            e.start_char + 10 + (t.length - e.end_char) := by
          rw [hstep]
          simp [List.length_append, htakelen, hRED, List.length_drop]
          omega
        have hm2 : ((redact_step t e).drop (e.start_char + 10 + (j - e.end_char))).take 10 =
            REDACTED := by
          rw [hstep, List.drop_append_eq_append_drop,
            List.drop_eq_nil_of_le (by rw [List.length_append, htakelen, hRED]; omega),
            List.nil_append, List.length_append, htakelen, hRED]
          have harith : e.start_char + 10 + (j - e.end_char) - (e.start_char + 10) =
              j - e.end_char := by omega
          rw [harith, List.drop_drop]
          have harith2 : e.end_char + (j - e.end_char) = j := by omega
          rw [harith2]
          exact hm
        apply ih (redact_step t e) (e.start_char + 10 + (j - e.end_char)) hpw.of_cons
          (fun f hf => hse f (List.mem_cons_of_mem e hf))
          (fun f hf => Or.inl (le_trans ((List.pairwise_cons.1 hpw).1 f hf) (by omega)))
          (by rw [hlen2]; omega) hm2
      · -- the span lies right of the marker: the marker keeps its offset
        have hminle : j + 10 ≤ (t.take e.start_char).length := by
          rw [List.length_take]; omega
        have hm2 : ((redact_step t e).drop j).take 10 = REDACTED := by
          rw [hstep, List.append_assoc, slice_append_of_le _ _ _ _ hminle,
            slice_take_of_le _ _ _ _ hleft]
          exact hm
        apply ih (redact_step t e) j hpw.of_cons
          (fun f hf => hse f (List.mem_cons_of_mem e hf))
          (fun f hf => hdisj f (List.mem_cons_of_mem e hf))
          (by
            rw [hstep]
            simp only [List.length_append]
            omega) hm2
    · rw [redact_step, if_neg hp]
      exact ih t j hpw.of_cons (fun f hf => hse f (List.mem_cons_of_mem e hf))
        (fun f hf => hdisj f (List.mem_cons_of_mem e hf)) hlen hm

/-- C8 amended: anonymization leaves any text unchanged when the entity
capability reports no person-type span; and when it does report person
spans - pairwise disjoint, well-formed, and none overlapping the marker
occurrence - the backward replacement order guarantees that a redaction
marker already present in the text survives (it is never redacted away).
Without the no-overlap proviso the code offers no such guarantee, as the
counterexample shows. -/
theorem C8_anonymize_marker (t : List Char) (ents : List Ent) (j : Nat) :
    ((∀ e ∈ ents, e.label ≠ "PERSON") → anonymize_text t ents = t) ∧
    ((sortEntsDesc ents).Pairwise (fun a b => b.end_char ≤ a.start_char) →
     (∀ e ∈ ents, e.start_char ≤ e.end_char) →
     (∀ e ∈ ents, e.end_char ≤ j ∨ j + 10 ≤ e.start_char) →
     j + 10 ≤ t.length →
     (t.drop j).take 10 = REDACTED →
     ∃ k, ((anonymize_text t ents).drop k).take 10 = REDACTED) := by
  have hmem : ∀ e, e ∈ sortEntsDesc ents → e ∈ ents := by
    intro e he
    exact (List.perm_insertionSort _ ents).subset he
  constructor
  · intro h
    exact foldl_no_person (sortEntsDesc ents) t (fun e he => h e (hmem e he))
  · intro hpw hse hdisj hlen hm
    obtain ⟨k, _, hk⟩ := redact_fold_marker (sortEntsDesc ents) t j hpw
      (fun e he => hse e (hmem e he)) (fun e he => hdisj e (hmem e he)) hlen hm
    exact ⟨k, hk⟩

/-- Witness for C8: a marker at offset 2 of "x [REDACTED] by Bob" survives
redaction of the PERSON span "Bob" at offsets 16..19, and a non-PERSON
entity list leaves the text unchanged. -/
theorem C8_anonymize_marker_witness :
    (anonymize_text ("x [REDACTED] by Bob".toList) [⟨16, 19, "ORG"⟩] =
      "x [REDACTED] by Bob".toList) ∧
    ∃ k, ((anonymize_text ("x [REDACTED] by Bob".toList) [⟨16, 19, "PERSON"⟩]).drop k).take 10 =
      REDACTED := by
  constructor
  · exact (C8_anonymize_marker ("x [REDACTED] by Bob".toList) [⟨16, 19, "ORG"⟩] 2).1
      (by decide)
  · exact (C8_anonymize_marker ("x [REDACTED] by Bob".toList) [⟨16, 19, "PERSON"⟩] 2).2
      (by decide) (by decide) (by decide) (by decide) (by decide)

/-! ## jd_optimizer.py: readability heuristic -/

/-- The character cleanup of count_syllables: word.lower().strip() followed
by re.sub removing every character outside a-z (stripping whitespace first
is subsumed, since whitespace is not in a-z). -/
def cleanWord (w : List Char) : List Char :=
  (lowerL w).filter (fun c => decide ('a' ≤ c) && decide (c ≤ 'z'))

/-- Vowels of the syllable heuristic, including y. -/
def isVowelY (c : Char) : Bool := c = 'a' || c = 'e' || c = 'i' || c = 'o' || c = 'u' || c = 'y'

/-- Number of maximal vowel groups, re.findall of a vowel run per group;
the flag records whether the scan is currently inside a vowel run. -/
def vowelGroups : List Char → Bool → Nat
  | [], _ => 0
  | c :: rest, inRun =>
      if isVowelY c then (if inRun then vowelGroups rest true else vowelGroups rest true + 1)
      else vowelGroups rest false

/-- Vowel-group count after the e-rule of count_syllables: deduct one when
the cleaned word ends in e and the count exceeds one. -/
def adjustedCount (word : List Char) : Nat :=
  if word.getLast? = some 'e' ∧ 1 < vowelGroups word false
  then vowelGroups word false - 1 else vowelGroups word false

/-- jd_optimizer.count_syllables on a character list: count vowel groups in
the cleaned word, deduct one when the cleaned word ends in e and the count
exceeds one, floor the positive counts at one, and return 0 for a word with
no a-z letters at all. -/
def count_syllables_l (w : List Char) : Nat :=
  if (cleanWord w).isEmpty then 0
  else if 0 < adjustedCount (cleanWord w) then adjustedCount (cleanWord w) else 1

/-- jd_optimizer.count_syllables on a string. -/
def count_syllables (word : String) : Nat := count_syllables_l word.toList

/-- Sentence segments of flesch_kincaid_grade that survive the strip
filter: re.split on runs of sentence punctuation yields exactly the maximal
punctuation-free segments (plus empty strings the filter removes), and
s.strip() is truthy exactly when the segment has a non-whitespace
character. -/
def sentencesOf (text : String) : List (List Char) :=
  (charRuns (fun c => !(c = '.' || c = '!' || c = '?')) text.toList).filter
    (fun s => s.any (fun c => !c.isWhitespace))

/-- The words re.findall(r'\w+', text) of flesch_kincaid_grade (the text is
not lowercased here; count_syllables lowercases each word itself). -/
def wordsOf (text : String) : List (List Char) := charRuns isWordChar text.toList

/-- Sentence count with the guard: len(sentences) if sentences else 1. -/
def total_sentences (text : String) : Nat :=
  if sentencesOf text = [] then 1 else (sentencesOf text).length

/-- Word count with the guard: len(words) if words else 1. -/
def total_words (text : String) : Nat :=
  if wordsOf text = [] then 1 else (wordsOf text).length

/-- Total syllables over the words of the text. -/
def total_syllables (text : String) : Nat :=
  ((wordsOf text).map count_syllables_l).sum

/-- jd_optimizer.flesch_kincaid_grade:
0.39 * (words / sentences) + 11.8 * (syllables / words) - 15.59. -/
def flesch_kincaid_grade (text : String) : ℚ :=
  0.39 * ((total_words text : ℚ) / (total_sentences text : ℚ)) +
    11.8 * ((total_syllables text : ℚ) / (total_words text : ℚ)) - 15.59

/-- C6 counterexample: the syllable heuristic is not floored at 1 for every
word: on the word "2" (a \w+ token) the cleanup deletes every character and
the function returns 0. -/
theorem C6_counterexample :
    count_syllables "2" = 0 ∧ ¬ (∀ w : String, 1 ≤ count_syllables w) := by
  refine ⟨by decide, fun h => absurd (h "2") (by decide)⟩

/-- C6 amended: the heuristic returns at least 1 for every word that still
contains a letter a-z after lowercasing (it returns 0 on letter-free words
such as bare numbers); the e-ending deduction never drops the count below
1; and the readability grade is exactly
0.39 * (words / sentences) + 11.8 * (syllables / words) - 15.59 with both
denominators floored at 1 when empty. -/
theorem C6_readability (w : String) (text : String)
    (hw : cleanWord w.toList ≠ []) :
    1 ≤ count_syllables w ∧
    total_sentences text = max (sentencesOf text).length 1 ∧
    total_words text = max (wordsOf text).length 1 ∧
    flesch_kincaid_grade text =
      0.39 * ((total_words text : ℚ) / (total_sentences text : ℚ)) +
        11.8 * ((total_syllables text : ℚ) / (total_words text : ℚ)) - 15.59 := by
  refine ⟨?_, ?_, ?_, rfl⟩
  · rw [count_syllables, count_syllables_l,
      if_neg (by simpa [List.isEmpty_iff] using hw)]
    by_cases hz : 0 < adjustedCount (cleanWord w.toList)
    · rw [if_pos hz]; omega
    · rw [if_neg hz]
  · rw [total_sentences]
    rcases h : sentencesOf text with _ | ⟨s, ss⟩
    · simp
    · simp [List.length_cons]
  · rw [total_words]
    rcases h : wordsOf text with _ | ⟨s, ss⟩
    · simp
    · simp [List.length_cons]

/-- Witness for C6 on the word "cake" (two vowel groups, e-deduction to
one) and the text of Scenario A. -/
theorem C6_readability_witness :
    1 ≤ count_syllables "cake" ∧
    total_sentences scenarioACv = max (sentencesOf scenarioACv).length 1 ∧
    total_words scenarioACv = max (wordsOf scenarioACv).length 1 ∧
    flesch_kincaid_grade scenarioACv =
      0.39 * ((total_words scenarioACv : ℚ) / (total_sentences scenarioACv : ℚ)) +
        11.8 * ((total_syllables scenarioACv : ℚ) / (total_words scenarioACv : ℚ)) - 15.59 :=
  C6_readability "cake" scenarioACv (by decide)

/-! ## app.py: HireSenseDashboard.process_candidates top-N projection -/

/-- The cv_bias_flags CSV cell as app.py sees it: a missing value read back
as the float NaN (not a string), or a string cell, distinguished by whether
Python eval of its text yields the original flag list or raises. -/
inductive FlagsCell where
  | nanv
  | strOk (flags : List String)
  | strBad
deriving DecidableEq, Repr

/-- One row of final_selected_candidates.csv as read back by app.py. -/
structure SelRow where
  candidate_id : String
  updated_score : ℚ
  grade_score : ℚ
  persona_fit_score : ℚ
  cv_bias_flags : FlagsCell
  explanation : String
deriving DecidableEq, Repr

/-- One formatted result entry of app.py process_candidates. -/
structure TopRow where
  candidate : String
  match_score : ℚ
  cv_score : ℚ
  persona_score : ℚ
  bias_free_score : ℚ
  explanation : String
deriving DecidableEq, Repr

/-- pandas nlargest(top_n, updated_score): the first top_n rows in stable
descending order of updated_score (ties keep the earlier row). -/
def nlargestBy (top_n : Nat) (rows : List SelRow) : List SelRow :=
  (List.insertionSort (fun a b => b.updated_score ≤ a.updated_score) rows).take top_n

instance selRowRelTotal : IsTotal SelRow (fun a b => b.updated_score ≤ a.updated_score) :=
  ⟨fun a b => le_total b.updated_score a.updated_score⟩

instance selRowRelTrans : IsTrans SelRow (fun a b => b.updated_score ≤ a.updated_score) :=
  ⟨fun _ _ _ h1 h2 => le_trans h2 h1⟩

/-- One loop iteration of app.py process_candidates result building:
match, cv and persona scores are scaled by 100; the bias-free score is
(1 - len(eval(flags)) / 10) * 100 when the flags cell is a string whose
eval succeeds, 100 when the cell is not a string, and the iteration raises
(returning none here) when eval of a string cell fails. -/
def formatRow (r : SelRow) : Option TopRow :=
  match r.cv_bias_flags with
  | .strBad => none
  | .strOk flags =>
      some { candidate := r.candidate_id
             match_score := r.updated_score * 100
             cv_score := r.grade_score * 100
             persona_score := r.persona_fit_score * 100
             bias_free_score := (1 - (flags.length : ℚ) / 10) * 100
             explanation := r.explanation }
  | .nanv =>
      some { candidate := r.candidate_id
             match_score := r.updated_score * 100
             cv_score := r.grade_score * 100
             persona_score := r.persona_fit_score * 100
             bias_free_score := 100
             explanation := r.explanation }

/-- The result-building loop of app.py process_candidates: one formatted
entry per selected row, aborted entirely when any row raises. -/
def formatRows : List SelRow → Option (List TopRow)
  | [] => some []
  | r :: rs =>
      match formatRow r, formatRows rs with
      | some o, some os => some (o :: os)
      | _, _ => none

/-- app.py process_candidates result formatting: iterate over
nlargest(top_n, updated_score). -/
def process_candidates (top_n : Nat) (rows : List SelRow) : Option (List TopRow) :=
  formatRows (nlargestBy top_n rows)

/-- Successful formatting relates input rows to output entries one by one,
in order. -/
lemma formatRows_forall2 : ∀ {l : List SelRow} {out : List TopRow},
    formatRows l = some out → List.Forall₂ (fun r o => formatRow r = some o) l out := by
  intro l
  induction l with
  | nil =>
    intro out h
    rw [formatRows] at h
    cases h
    exact List.Forall₂.nil
  | cons r rs ih =>
    intro out h
    rw [formatRows] at h
    rcases hfr : formatRow r with _ | o <;> rw [hfr] at h
    · cases h
    · rcases hrs : formatRows rs with _ | os <;> rw [hrs] at h
      · cases h
      · cases h
        exact List.Forall₂.cons hfr (ih hrs)

/-- Every member of the right list of a Forall₂ has a related member on the
left. -/
lemma forall2_exists_left {α β : Type} {R : α → β → Prop} :
    ∀ {l : List α} {out : List β}, List.Forall₂ R l out → ∀ o ∈ out, ∃ r ∈ l, R r o := by
  intro l out h
  induction h with
  | nil => intro o ho; cases ho
  | cons hr _ ih =>
    intro o ho
    rcases List.mem_cons.1 ho with rfl | ho2
    · exact ⟨_, List.mem_cons_self _ _, hr⟩
    · rcases ih o ho2 with ⟨r, hrmem, hR⟩
      exact ⟨r, List.mem_cons_of_mem _ hrmem, hR⟩

/-- A pairwise relation transfers along a Forall₂ by compatibility. -/
lemma forall2_pairwise {α β : Type} {R : α → β → Prop} {p : α → α → Prop} {q : β → β → Prop}
    (hcompat : ∀ a b x y, R a x → R b y → p a b → q x y) :
    ∀ {l : List α} {out : List β}, List.Forall₂ R l out → l.Pairwise p → out.Pairwise q := by
  intro l out h
  induction h with
  | nil => intro _; exact List.Pairwise.nil
  | @cons a x l2 out2 hr ht ih =>
    intro hpw
    rcases List.pairwise_cons.1 hpw with ⟨hforall, htail⟩
    refine List.pairwise_cons.2 ⟨?_, ih htail⟩
    intro y hy
    rcases forall2_exists_left ht y hy with ⟨b, hb, hRb⟩
    exact hcompat a b x y hr hRb (hforall b hb)

/-- Field content of one successfully formatted entry. -/
lemma formatRow_fields (r : SelRow) (o : TopRow) (h : formatRow r = some o) :
    o.candidate = r.candidate_id ∧ o.match_score = r.updated_score * 100 ∧
    o.cv_score = r.grade_score * 100 ∧ o.persona_score = r.persona_fit_score * 100 ∧
    o.explanation = r.explanation ∧
    ((r.cv_bias_flags = FlagsCell.nanv ∧ o.bias_free_score = 100) ∨
      ∃ flags, r.cv_bias_flags = FlagsCell.strOk flags ∧
        o.bias_free_score = (1 - (flags.length : ℚ) / 10) * 100) := by
  rcases hf : r.cv_bias_flags with _ | flags | _ <;> rw [formatRow, hf] at h
  · cases h
    exact ⟨rfl, rfl, rfl, rfl, rfl, Or.inl ⟨rfl, rfl⟩⟩
  · cases h
    exact ⟨rfl, rfl, rfl, rfl, rfl, Or.inr ⟨flags, rfl, rfl⟩⟩
  · cases h

/-- Concrete selected row whose flag string cannot be parsed back. -/
def c9bad : SelRow :=
  { candidate_id := "bad.pdf"
    updated_score := 0
    grade_score := 0
    persona_fit_score := 0
    cv_bias_flags := FlagsCell.strBad
    explanation := "e" }

/-- C9 counterexample: a selected row whose flag cell is a string that eval
cannot parse makes result formatting raise, so process_candidates yields no
result at all - instead of the claimed fail-open bias_free_score of 100 the
row count min(N, selected) = 1 is not delivered. -/
theorem C9_counterexample :
    process_candidates 1 [c9bad] = none ∧ min 1 [c9bad].length = 1 := by
  constructor
  · rfl
  · rfl

/-- C9 amended: whenever result formatting succeeds, it returns exactly
min(N, number of selected rows) entries in non-increasing updated_score
order (match_score = updated_score * 100 preserves the order), every entry
coming from a selected row with match = updated * 100, cv = grade * 100,
persona = persona_fit * 100, and bias_free = (1 - flags/10) * 100 for a
parseable flag string and 100 for a missing (non-string) flag cell; a
present but unparseable flag string instead aborts formatting with no
result (the code fails closed there, not open). -/
theorem C9_topN (top_n : Nat) (rows : List SelRow) (out : List TopRow)
    (h : process_candidates top_n rows = some out) :
    out.length = min top_n rows.length ∧
    List.Pairwise (fun a b : TopRow => b.match_score ≤ a.match_score) out ∧
    ∀ o ∈ out, ∃ r ∈ rows,
      o.candidate = r.candidate_id ∧ o.match_score = r.updated_score * 100 ∧
      o.cv_score = r.grade_score * 100 ∧ o.persona_score = r.persona_fit_score * 100 ∧
      o.explanation = r.explanation ∧
      ((r.cv_bias_flags = FlagsCell.nanv ∧ o.bias_free_score = 100) ∨
        ∃ flags, r.cv_bias_flags = FlagsCell.strOk flags ∧
          o.bias_free_score = (1 - (flags.length : ℚ) / 10) * 100) := by
  have h2 := formatRows_forall2 h
  refine ⟨?_, ?_, ?_⟩
  · rw [← h2.length_eq, nlargestBy, List.length_take, List.length_insertionSort]
  · have hs : List.Pairwise (fun a b : SelRow => b.updated_score ≤ a.updated_score)
        (nlargestBy top_n rows) :=
      List.Pairwise.sublist (List.take_sublist _ _)
        (List.sorted_insertionSort (fun a b : SelRow => b.updated_score ≤ a.updated_score) rows)
    refine forall2_pairwise ?_ h2 hs
    intro a b x y hax hby hp
    have hxa := (formatRow_fields a x hax).2.1
    have hyb := (formatRow_fields b y hby).2.1
    rw [hxa, hyb]
    exact mul_le_mul_of_nonneg_right hp (by norm_num)
  · intro o ho
    rcases forall2_exists_left h2 o ho with ⟨r, hrmem, hfr⟩
    refine ⟨r, ?_, formatRow_fields r o hfr⟩
    exact (List.perm_insertionSort _ rows).subset ((List.take_sublist _ _).subset hrmem)

/-- Concrete selected set for the C9 witness: two rows, one with a missing
flags cell and one with a parseable one-flag cell. -/
def c9rows : List SelRow :=
  [{ candidate_id := "a.pdf", updated_score := 0, grade_score := 0,
     persona_fit_score := 0, cv_bias_flags := FlagsCell.nanv, explanation := "ea" },
   { candidate_id := "b.pdf", updated_score := 1, grade_score := 1/2,
     persona_fit_score := 1/2, cv_bias_flags := FlagsCell.strOk ["guru"], explanation := "eb" }]

/-- Formatted output of the C9 witness rows. -/
def c9out : List TopRow :=
  [{ candidate := "b.pdf", match_score := 100, cv_score := 50, persona_score := 50,
     bias_free_score := 90, explanation := "eb" },
   { candidate := "a.pdf", match_score := 0, cv_score := 0, persona_score := 0,
     bias_free_score := 100, explanation := "ea" }]

/-- Witness for C9 on the two-row selected set. -/
theorem C9_topN_witness :
    c9out.length = min 2 c9rows.length ∧
    List.Pairwise (fun a b : TopRow => b.match_score ≤ a.match_score) c9out ∧
    ∀ o ∈ c9out, ∃ r ∈ c9rows,
      o.candidate = r.candidate_id ∧ o.match_score = r.updated_score * 100 ∧
      o.cv_score = r.grade_score * 100 ∧ o.persona_score = r.persona_fit_score * 100 ∧
      o.explanation = r.explanation ∧
      ((r.cv_bias_flags = FlagsCell.nanv ∧ o.bias_free_score = 100) ∨
        ∃ flags, r.cv_bias_flags = FlagsCell.strOk flags ∧
          o.bias_free_score = (1 - (flags.length : ℚ) / 10) * 100) :=
  C9_topN 2 c9rows c9out (by
    norm_num [process_candidates, nlargestBy, List.insertionSort, List.orderedInsert,
      formatRows, formatRow, c9rows, c9out])

/-! ## File-level pipeline: supervisor.py orchestrating the seven agents

The agents exchange CSV files.  A DataFrame is a column list plus rows of
cells; to_csv / read_csv model the pandas round trip: a DataFrame without
columns (pd.DataFrame of an empty record list) serializes to a file pandas
cannot read back (EmptyDataError: no columns to parse).  Numeric cells
survive the round trip as pandas re-infers floats on read. -/

/-- A CSV cell: a string, a number, or SQL NULL / pandas NaN. -/
inductive Cell where
  | strv (s : String)
  | numv (q : ℚ)
  | null
deriving DecidableEq, Repr

/-- The failure kinds a stage can exit with (each makes the agent process
exit non-zero, which subprocess.run(check=True) turns into a raised
CalledProcessError in the supervisor). -/
inductive AgentErr where
  | schemaError (col : String)
  | emptyData
  | typeError
  | keyError (what : String)
deriving DecidableEq, Repr

/-- A pandas DataFrame at the granularity the pipeline claims need. -/
structure DF where
  cols : List String
  rows : List (List Cell)
deriving DecidableEq, Repr

/-- Text of a cell (used for header cells, which are always strings). -/
def cellStr : Cell → String
  | .strv s => s
  | _ => ""

/-- DataFrame.to_csv: the header line then the rows; a DataFrame without
columns produces a file with no parseable content. -/
def toCsv (df : DF) : List (List Cell) :=
  if df.cols.isEmpty then [] else (df.cols.map Cell.strv) :: df.rows

/-- pandas read_csv: the first line is the header; a file without columns
raises EmptyDataError (missing and empty files fail the same way here). -/
def readCsv (file : List (List Cell)) : Except AgentErr DF :=
  match file with
  | [] => .error .emptyData
  | header :: rs => .ok ⟨header.map cellStr, rs⟩

/-- A cell used where Python requires a str (lower, regex, spaCy): a float
there raises a TypeError. -/
def asStr : Cell → Except AgentErr String
  | .strv s => .ok s
  | _ => .error .typeError

/-- A cell used where Python requires a number. -/
def asNum : Cell → Except AgentErr ℚ
  | .numv q => .ok q
  | _ => .error .typeError

/-- Index of a column name in the header. -/
def colIdx (df : DF) (c : String) : Nat := df.cols.findIdx (· = c)

/-- Cell of a row at a column index. -/
def cellAt (row : List Cell) (i : Nat) : Cell := row.getD i Cell.null

/-- Cell of a row under a column name. -/
def getCell (df : DF) (row : List Cell) (c : String) : Cell := cellAt row (colIdx df c)

/-- df[name] = values: append one column, aligning by position. -/
def addCol (df : DF) (name : String) (vals : List Cell) : DF :=
  ⟨df.cols ++ [name], (df.rows.zip vals).map (fun p => p.1 ++ [p.2])⟩

/-- df[names]: keep and reorder columns; a missing name raises KeyError. -/
def selectColsE (df : DF) (names : List String) : Except AgentErr DF :=
  if names.all (fun n => df.cols.contains n) then
    .ok ⟨names, df.rows.map (fun r => names.map (fun n => cellAt r (colIdx df n)))⟩
  else .error (.keyError "column selection")

/-- Left-to-right effectful map over Except, aborting at the first error,
as a Python for-loop over rows does at the first raised exception. -/
def mapME (f : α → Except AgentErr β) : List α → Except AgentErr (List β)
  | [] => .ok []
  | a :: as =>
      match f a with
      | .error e => .error e
      | .ok b =>
          match mapME f as with
          | .error e => .error e
          | .ok bs => .ok (b :: bs)

/-- The external ML capabilities, opaque to the orchestration core: T5
rephrasing, spaCy entities and noun phrases, PyPDF2 extraction, sentence
embeddings with cosine similarity, spaCy NER spans, sentiment, SHAP
contributions, and Python float formatting. -/
structure Caps where
  rephrase : String → String
  jdEntities : String → String
  cvEntities : String → String
  pdfText : String → String
  embedGrade : String → String → ℚ
  nerEnts : String → List Ent
  sentLabel : String → String
  sentScore : String → ℚ
  shap : List (ℚ × ℚ) → List (ℚ × ℚ)
  fmt2 : ℚ → String

/-- The per-request workspace: the seeded inputs, each intermediate CSV
(initially absent, modelled as an unreadable empty file), the selection
store with a log of every row ever inserted during the run, and the final
artifact. -/
structure FS where
  jdFile : List (List Cell)
  cvDocs : List (String × String)
  optimizedJds : List (List Cell)
  cvGrading : List (List Cell)
  jdBias : List (List Cell)
  cvBias : List (List Cell)
  personaOut : List (List Cell)
  explainOut : List (List Cell)
  feedbackOut : List (List Cell)
  storeRows : List (List Cell)
  storeWrites : List (List Cell)
  finalSelected : List (List Cell)
deriving Repr

/-- Fresh workspace as app.setup_workspace provisions it: the seeded job
description CSV and CV documents, nothing else. -/
def initFS (jdFile : List (List Cell)) (cvDocs : List (String × String)) : FS :=
  ⟨jdFile, cvDocs, [], [], [], [], [], [], [], [], [], []⟩

/-- jd_optimizer.optimize_jd: rephrase via the external capability when the
readability grade exceeds the threshold 10.0, else pass the text through. -/
def optimize_jd (caps : Caps) (jd : String) : String × ℚ :=
  (if 10 < flesch_kincaid_grade jd then caps.rephrase jd else jd, flesch_kincaid_grade jd)

/-- Column order of the jd_optimizer output CSV. -/
def jdKeepCols : List String :=
  ["Job Title", "Job Description", "optimized_jd", "grade_level", "extracted_entities"]

/-- Stage 1, jd_optimizer.process_jd_file: read the seeded JD CSV, require
the Job Title and Job Description columns (sys.exit(1) on the first one
missing), optimize every description, extract entities from the original
text, and write the five kept columns. -/
def jdStage (caps : Caps) (fs : FS) : Except AgentErr FS :=
  match readCsv fs.jdFile with
  | .error e => .error e
  | .ok df =>
    if !(df.cols.contains "Job Title") then .error (.schemaError "Job Title")
    else if !(df.cols.contains "Job Description") then .error (.schemaError "Job Description")
    else
      match mapME (fun r => asStr (getCell df r "Job Description")) df.rows with
      | .error e => .error e
      | .ok jds =>
        let df2 := addCol df "optimized_jd"
          (jds.map (fun jd => Cell.strv (optimize_jd caps jd).1))
        let df3 := addCol df2 "grade_level"
          (jds.map (fun jd => Cell.numv (optimize_jd caps jd).2))
        let df4 := addCol df3 "extracted_entities"
          (jds.map (fun jd => Cell.strv (caps.jdEntities jd)))
        match selectColsE df4 jdKeepCols with
        | .error e => .error e
        | .ok df5 => .ok { fs with optimizedJds := toCsv df5 }

/-- One CV document of cv_grader.process_cv_folder: PDFs go through the
extraction capability, TXT files are read directly, other extensions are
skipped, as are documents whose extracted text is whitespace-only. -/
def gradeRow (caps : Caps) (ref : String) (doc : String × String) : Option (List Cell) :=
  let lowname := String.mk (lowerL doc.1.toList)
  let text? : Option String :=
    if lowname.endsWith ".pdf" then some (caps.pdfText doc.2)
    else if lowname.endsWith ".txt" then some doc.2
    else none
  match text? with
  | none => none
  | some text =>
      if text.toList.all (fun c => c.isWhitespace) then none
      else some [Cell.strv doc.1, Cell.numv (caps.embedGrade ref text),
        Cell.strv (caps.cvEntities text), Cell.strv (String.mk (text.toList.take 200))]

/-- Sort key of the grading output: the grade_score cell. -/
def rowGrade (r : List Cell) : ℚ :=
  match cellAt r 1 with
  | .numv q => q
  | _ => 0

/-- Stage 2, cv_grader.process_cv_folder: the reference text is the first
optimized_jd; every supported CV is graded; the rows are sorted by grade
descending; with no processed document the record list is empty and
pd.DataFrame of it has no columns at all, so an empty, header-less CSV is
written (the agent warns but exits zero). -/
def cvGraderStage (caps : Caps) (fs : FS) : Except AgentErr FS :=
  match readCsv fs.optimizedJds with
  | .error e => .error e
  | .ok df =>
    if !(df.cols.contains "optimized_jd") || df.rows.isEmpty then
      .error (.schemaError "optimized_jd")
    else
      match asStr (getCell df (df.rows.headD []) "optimized_jd") with
      | .error e => .error e
      | .ok ref =>
        let results := fs.cvDocs.filterMap (gradeRow caps ref)
        let sorted := List.insertionSort (fun a b => rowGrade b ≤ rowGrade a) results
        let rdf : DF :=
          if results.isEmpty then ⟨[], []⟩
          else ⟨["candidate_filename", "grade_score", "extracted_entities", "cv_text_preview"],
            sorted⟩
        .ok { fs with cvGrading := toCsv rdf }

/-- Python str(list_of_flags): the textual form later re-parsed by eval. -/
def pyReprList (l : List String) : String :=
  let q := String.singleton (Char.ofNat 39)
  "[" ++ String.intercalate ", " (l.map (fun s => q ++ s ++ q)) ++ "]"

/-- anonymize_text lifted to strings, the NER capability supplying the
entity spans of the given text. -/
def anonymizeStr (caps : Caps) (text : String) : String :=
  String.mk (anonymize_text text.toList (caps.nerEnts text))

/-- Column order the bias agent keeps in its JD output. -/
def biasJdKeep : List String :=
  ["Job Title", "Job Description", "optimized_jd", "grade_level", "extracted_entities",
    "jd_bias_flags", "jd_anonymized"]

/-- bias_agent.process_jd: read the optimized JDs, require the optimized_jd
column, flag and anonymize every row, keep the reporting columns. -/
def processJd (caps : Caps) (fs : FS) : Except AgentErr FS :=
  match readCsv fs.optimizedJds with
  | .error e => .error e
  | .ok df =>
    if !(df.cols.contains "optimized_jd") then .error (.schemaError "optimized_jd")
    else
      match mapME (fun r => asStr (getCell df r "optimized_jd")) df.rows with
      | .error e => .error e
      | .ok texts =>
        let df2 := addCol df "jd_bias_flags"
          (texts.map (fun t => Cell.strv (pyReprList (detect_bias t))))
        let df3 := addCol df2 "jd_anonymized"
          (texts.map (fun t => Cell.strv (anonymizeStr caps t)))
        match selectColsE df3 biasJdKeep with
        | .error e => .error e
        | .ok df4 => .ok { fs with jdBias := toCsv df4 }

/-- bias_agent.process_cv: read the grading output, require the
cv_text_preview column, flag and anonymize every row. -/
def processCv (caps : Caps) (fs : FS) : Except AgentErr FS :=
  match readCsv fs.cvGrading with
  | .error e => .error e
  | .ok df =>
    if !(df.cols.contains "cv_text_preview") then .error (.schemaError "cv_text_preview")
    else
      match mapME (fun r => asStr (getCell df r "cv_text_preview")) df.rows with
      | .error e => .error e
      | .ok texts =>
        let df2 := addCol df "cv_bias_flags"
          (texts.map (fun t => Cell.strv (pyReprList (detect_bias t))))
        let df3 := addCol df2 "cv_anonymized"
          (texts.map (fun t => Cell.strv (anonymizeStr caps t)))
        .ok { fs with cvBias := toCsv df3 }

/-- Stage 3, the bias agent main: JD pass then CV pass. -/
def biasStage (caps : Caps) (fs : FS) : Except AgentErr FS :=
  match processJd caps fs with
  | .error e => .error e
  | .ok fs2 => processCv caps fs2

/-- Stage 4, persona_agent.process_cv_file: require cv_text_preview and
append the persona fit score of every CV text. -/
def personaStage (caps : Caps) (fs : FS) : Except AgentErr FS :=
  match readCsv fs.cvBias with
  | .error e => .error e
  | .ok df =>
    if !(df.cols.contains "cv_text_preview") then .error (.schemaError "cv_text_preview")
    else
      match mapME (fun r => asStr (getCell df r "cv_text_preview")) df.rows with
      | .error e => .error e
      | .ok texts =>
        let scores := texts.map (fun t =>
          Cell.numv (compute_persona_fit (caps.sentLabel t) (caps.sentScore t) t))
        .ok { fs with personaOut := toCsv (addCol df "persona_fit_score" scores) }

/-- Sentence rendering of explainability_agent.generate_explanations for
the two features, the float formatting delegated to the capability. -/
def explSentence (caps : Caps) (name : String) (contribs : ℚ × ℚ) : String :=
  let q := String.singleton (Char.ofNat 39)
  "Candidate " ++ q ++ name ++ q ++ ": " ++
    "grade_score " ++ (if 0 ≤ contribs.1 then "increases" else "decreases") ++
    " score by " ++ caps.fmt2 |contribs.1| ++ "; " ++
    "persona_fit_score " ++ (if 0 ≤ contribs.2 then "increases" else "decreases") ++
    " score by " ++ caps.fmt2 |contribs.2| ++ "; "

/-- Stage 5, explainability_agent.process_candidates: require the three
feature columns, fit the linear model and let SHAP (an external capability)
attribute per-row contributions, then render one sentence per candidate. -/
def explainStage (caps : Caps) (fs : FS) : Except AgentErr FS :=
  match readCsv fs.personaOut with
  | .error e => .error e
  | .ok df =>
    if !(df.cols.contains "candidate_filename") then .error (.schemaError "candidate_filename")
    else if !(df.cols.contains "grade_score") then .error (.schemaError "grade_score")
    else if !(df.cols.contains "persona_fit_score") then .error (.schemaError "persona_fit_score")
    else
      match mapME (fun r => asStr (getCell df r "candidate_filename")) df.rows with
      | .error e => .error e
      | .ok names =>
        match mapME (fun r => asNum (getCell df r "grade_score")) df.rows with
        | .error e => .error e
        | .ok gs =>
          match mapME (fun r => asNum (getCell df r "persona_fit_score")) df.rows with
          | .error e => .error e
          | .ok ps =>
            let contribs := caps.shap (gs.zip ps)
            let expls := (names.zip contribs).map
              (fun p => Cell.strv (explSentence caps p.1 p.2))
            .ok { fs with explainOut := toCsv (addCol df "explanation" expls) }

/-- The explanation cell as the feedback rule sees it. -/
def toExplCell : Cell → ExplCell
  | .strv s => ExplCell.strv s
  | .numv q => ExplCell.numv q
  | .null => ExplCell.nan

/-- Stage 6, feedback_agent.adjust_candidate_scores at the file level:
require the three input columns, then append composite, adjustment and
updated score columns computed row-wise. -/
def feedbackStage (fs : FS) : Except AgentErr FS :=
  match readCsv fs.explainOut with
  | .error e => .error e
  | .ok df =>
    if !(df.cols.contains "grade_score") then .error (.schemaError "grade_score")
    else if !(df.cols.contains "persona_fit_score") then .error (.schemaError "persona_fit_score")
    else if !(df.cols.contains "explanation") then .error (.schemaError "explanation")
    else
      match mapME (fun r => asNum (getCell df r "grade_score")) df.rows with
      | .error e => .error e
      | .ok gs =>
        match mapME (fun r => asNum (getCell df r "persona_fit_score")) df.rows with
        | .error e => .error e
        | .ok ps =>
          let comps := List.zipWith (fun g p => (0.6 * g + 0.4 * p : ℚ)) gs ps
          let adjs := df.rows.map
            (fun r => feedback_adjust (toExplCell (getCell df r "explanation")))
          let upds := List.zipWith (fun c a => (c + a : ℚ)) comps adjs
          let df2 := addCol df "composite_score" (comps.map Cell.numv)
          let df3 := addCol df2 "feedback_adjustment" (adjs.map Cell.numv)
          let df4 := addCol df3 "updated_score" (upds.map Cell.numv)
          .ok { fs with feedbackOut := toCsv df4 }

/-- Schema of the Candidates table sql_agent.create_table creates. -/
def CandidatesSchema : List String :=
  ["candidate_id", "candidate_name", "grade_score", "extracted_entities", "cv_text_preview",
    "cv_bias_flags", "cv_anonymized", "persona_fit_score", "explanation", "composite_score",
    "feedback_adjustment", "updated_score"]

/-- SQL comparison updated_score >= threshold; a NULL compares as not true. -/
def sqlGe (c : Cell) (t : ℚ) : Bool :=
  match c with
  | .numv q => decide (t ≤ q)
  | _ => false

/-- Stage 7, the sql_agent main: drop and recreate the Candidates table,
insert every feedback row (candidate_filename renamed to candidate_id,
absent table columns filled with NULL; a DataFrame column outside the table
schema would make to_sql raise), then select the rows with updated_score at
or above the threshold - the argparse default 0.3, since the supervisor
passes no arguments - and write them with the full table schema. -/
def sqlStage (fs : FS) : Except AgentErr FS :=
  let fs1 := { fs with storeRows := ([] : List (List Cell)) }
  match readCsv fs1.feedbackOut with
  | .error e => .error e
  | .ok df =>
    let cols := df.cols.map (fun c => if c = "candidate_filename" then "candidate_id" else c)
    if !(cols.all (fun c => CandidatesSchema.contains c)) then .error (.keyError "to_sql")
    else
      let aligned := df.rows.map (fun r => CandidatesSchema.map (fun c =>
        match cols.findIdx? (· = c) with
        | some i => cellAt r i
        | none => Cell.null))
      let fs2 := { fs1 with
        storeRows := fs1.storeRows ++ aligned
        storeWrites := fs1.storeWrites ++ aligned }
      let updIdx := CandidatesSchema.findIdx (· = "updated_score")
      let selected := fs2.storeRows.filter (fun r => sqlGe (cellAt r updIdx) (3/10))
      .ok { fs2 with finalSelected := toCsv ⟨CandidatesSchema, selected⟩ }

/-- supervisor.run_agent looped over the agent list: each stage runs as a
blocking subprocess with check=True, so the first non-zero exit raises and
aborts the remaining stages; the pair returned is the workspace state at
that point and the failure, if any. -/
def run_agents : List (FS → Except AgentErr FS) → FS → FS × Option AgentErr
  | [], fs => (fs, none)
  | stage :: rest, fs =>
      match stage fs with
      | .ok fs2 => run_agents rest fs2
      | .error e => (fs, some e)

/-- The fixed agent order of supervisor.main. -/
def pipeline (caps : Caps) : List (FS → Except AgentErr FS) :=
  [jdStage caps, cvGraderStage caps, biasStage caps, personaStage caps,
    explainStage caps, feedbackStage, sqlStage]

/-- After a successful prefix, a failing stage makes the whole run stop
with that failure and the state reached so far. -/
lemma run_agents_append_fail (pre : List (FS → Except AgentErr FS)) :
    ∀ (g : FS → Except AgentErr FS) (post : List (FS → Except AgentErr FS))
      (s s1 : FS) (e : AgentErr),
    run_agents pre s = (s1, none) → g s1 = Except.error e →
    run_agents (pre ++ g :: post) s = (s1, some e) := by
  induction pre with
  | nil =>
    intro g post s s1 e hpre hg
    rw [run_agents] at hpre
    injection hpre with h1 _
    subst h1
    rw [List.nil_append, run_agents, hg]
  | cons f fs ih =>
    intro g post s s1 e hpre hg
    rw [run_agents] at hpre
    rcases hf : f s with e2 | s2 <;> rw [hf] at hpre
    · cases hpre
    · rw [List.cons_append, run_agents, hf]
      exact ih g post s2 s1 e hpre hg

/-- C5: orchestration is fail-fast - once a stage raises after a successful
prefix, the run ends Failed in the state reached before the failure, and
the stages after the failing one have no influence on the outcome at all
(they are never executed); in particular a job-description table without
the description column makes the first stage abort with a schema error
(on that column, or on the also-required title column when that one is
missing too) and the run ends with the selection store write log still
empty - zero rows are ever written. -/
theorem C5_fail_fast :
    (∀ (pre : List (FS → Except AgentErr FS)) (g : FS → Except AgentErr FS)
        (post post2 : List (FS → Except AgentErr FS)) (s s1 : FS) (e : AgentErr),
      run_agents pre s = (s1, none) → g s1 = Except.error e →
      run_agents (pre ++ g :: post) s = (s1, some e) ∧
        run_agents (pre ++ g :: post) s = run_agents (pre ++ g :: post2) s) ∧
    (∀ (caps : Caps) (cols : List String) (rws : List (List Cell))
        (docs : List (String × String)),
      cols ≠ [] → "Job Description" ∉ cols →
      ∃ c, (c = "Job Title" ∨ c = "Job Description") ∧
        run_agents (pipeline caps) (initFS (toCsv ⟨cols, rws⟩) docs) =
          (initFS (toCsv ⟨cols, rws⟩) docs, some (AgentErr.schemaError c)) ∧
        (run_agents (pipeline caps) (initFS (toCsv ⟨cols, rws⟩) docs)).1.storeWrites = []) := by
  constructor
  · intro pre g post post2 s s1 e hpre hg
    exact ⟨run_agents_append_fail pre g post s s1 e hpre hg,
      (run_agents_append_fail pre g post s s1 e hpre hg).trans
        (run_agents_append_fail pre g post2 s s1 e hpre hg).symm⟩
  · intro caps cols rws docs hne hnd
    have hread : readCsv (toCsv ⟨cols, rws⟩) = .ok ⟨cols, rws⟩ := by
      rw [toCsv, if_neg (by simpa [List.isEmpty_iff] using hne), readCsv]
      have hcomp : cellStr ∘ Cell.strv = id := funext (fun _ => rfl)
      rw [List.map_map, hcomp, List.map_id]
    have hndb : cols.contains "Job Description" = false := by
      simpa using hnd
    by_cases hjt : cols.contains "Job Title"
    · have hstage : jdStage caps (initFS (toCsv ⟨cols, rws⟩) docs) =
          Except.error (AgentErr.schemaError "Job Description") := by
        simp only [jdStage, initFS, hread, hjt, hndb, Bool.not_true, Bool.not_false,
          Bool.false_eq_true, if_false, if_true]
      have hrun : run_agents (pipeline caps) (initFS (toCsv ⟨cols, rws⟩) docs) =
          (initFS (toCsv ⟨cols, rws⟩) docs, some (AgentErr.schemaError "Job Description")) := by
        rw [pipeline, run_agents, hstage]
      exact ⟨"Job Description", Or.inr rfl, hrun, by rw [hrun]; rfl⟩
    · have hjtf : cols.contains "Job Title" = false := by
        simpa using hjt
      have hstage : jdStage caps (initFS (toCsv ⟨cols, rws⟩) docs) =
          Except.error (AgentErr.schemaError "Job Title") := by
        simp only [jdStage, initFS, hread, hjtf, Bool.not_false, if_true]
      have hrun : run_agents (pipeline caps) (initFS (toCsv ⟨cols, rws⟩) docs) =
          (initFS (toCsv ⟨cols, rws⟩) docs, some (AgentErr.schemaError "Job Title")) := by
        rw [pipeline, run_agents, hstage]
      exact ⟨"Job Title", Or.inl rfl, hrun, by rw [hrun]; rfl⟩

/-- Capability instance with inert placeholder models, usable to run the
embedded pipeline on concrete inputs. -/
def trivCaps : Caps :=
  { rephrase := fun s => s
    jdEntities := fun _ => ""
    cvEntities := fun _ => ""
    pdfText := fun _ => ""
    embedGrade := fun _ _ => 0
    nerEnts := fun _ => []
    sentLabel := fun _ => ""
    sentScore := fun _ => 0
    shap := fun l => l
    fmt2 := fun _ => "" }

/-- Witness for C5: a concrete failing stage after an empty prefix, and the
concrete schema-error scenario with only the title column present. -/
theorem C5_fail_fast_witness :
    (run_agents ([] ++ (fun _ => Except.error AgentErr.emptyData) :: [sqlStage])
        (initFS [] []) = (initFS [] [], some AgentErr.emptyData) ∧
      run_agents ([] ++ (fun _ => Except.error AgentErr.emptyData) :: [sqlStage])
          (initFS [] []) =
        run_agents ([] ++ (fun _ => Except.error AgentErr.emptyData) :: []) (initFS [] [])) ∧
    (∃ c, (c = "Job Title" ∨ c = "Job Description") ∧
      run_agents (pipeline trivCaps) (initFS (toCsv ⟨["Job Title"], []⟩) []) =
        (initFS (toCsv ⟨["Job Title"], []⟩) [], some (AgentErr.schemaError c)) ∧
      (run_agents (pipeline trivCaps)
        (initFS (toCsv ⟨["Job Title"], []⟩) [])).1.storeWrites = []) :=
  ⟨C5_fail_fast.1 [] (fun _ => Except.error AgentErr.emptyData) [sqlStage] []
      (initFS [] []) (initFS [] []) AgentErr.emptyData rfl rfl,
    C5_fail_fast.2 trivCaps ["Job Title"] [] [] (by simp) (by simp)⟩

/-- The job-description CSV app.setup_workspace writes for Scenario C: one
record with a title and a short description. -/
def c4jdFile : List (List Cell) :=
  [[Cell.strv "Job Title", Cell.strv "Job Description"],
   [Cell.strv "Developer", Cell.strv "Hire now."]]

/-- Scenario C workspace: the seeded JD and zero CV documents. -/
def c4init : FS := initFS c4jdFile []

/-- Workspace after the JD stage in Scenario C. -/
def c4st1 (caps : Caps) : FS :=
  { c4init with optimizedJds :=
    [[Cell.strv "Job Title", Cell.strv "Job Description", Cell.strv "optimized_jd",
      Cell.strv "grade_level", Cell.strv "extracted_entities"],
     [Cell.strv "Developer", Cell.strv "Hire now.", Cell.strv "Hire now.",
      Cell.numv (flesch_kincaid_grade "Hire now."), Cell.strv (caps.jdEntities "Hire now.")]] }

/-- Workspace after the grading stage in Scenario C: the grading CSV is the
empty, header-less file pandas writes for a column-less DataFrame. -/
def c4st2 (caps : Caps) : FS := { c4st1 caps with cvGrading := [] }

/-- The short description stays below the readability threshold, so the JD
stage passes it through without calling the rephrasing capability. -/
lemma c4_no_rephrase : ¬ ((10 : ℚ) < flesch_kincaid_grade "Hire now.") := by
  have hW : total_words "Hire now." = 2 := by decide
  have hS : total_sentences "Hire now." = 1 := by decide
  have hSy : total_syllables "Hire now." = 2 := by decide
  rw [flesch_kincaid_grade, hW, hS, hSy]
  norm_num

/-- Scenario C stage 1: the JD stage succeeds and writes the five-column
optimized CSV. -/
lemma c4_stage1 (caps : Caps) : jdStage caps c4init = Except.ok (c4st1 caps) := by
  have hopt : optimize_jd caps "Hire now." =
      ("Hire now.", flesch_kincaid_grade "Hire now.") := by
    rw [optimize_jd, if_neg c4_no_rephrase]
  simp only [jdStage, c4init, c4jdFile, initFS, readCsv, List.map, cellStr, mapME, asStr,
    getCell, cellAt, colIdx, List.findIdx, List.findIdx.go, List.getD, List.get?, addCol,
    selectColsE, jdKeepCols, toCsv, c4st1, hopt, List.zip, List.zipWith, List.all,
    List.contains, List.elem]
  simp [c4st1, c4init, c4jdFile, initFS, List.isEmpty, hopt]

/-- Scenario C stage 2: with zero CV documents the grader processes no file
and writes a header-less empty CSV, exiting successfully. -/
lemma c4_stage2 (caps : Caps) : cvGraderStage caps (c4st1 caps) = Except.ok (c4st2 caps) := rfl

/-- Scenario C stage 3: the bias agent finishes the JD pass, then its CV
pass reads the header-less grading CSV and pandas raises EmptyDataError,
so the stage exits non-zero. -/
lemma c4_stage3 (caps : Caps) : biasStage caps (c4st2 caps) = Except.error AgentErr.emptyData :=
  rfl

/-- C4, the observed code behavior: with zero supported CV documents the
run does not
reach Completed - the grading stage writes a header-less empty CSV, the
bias stage fails reading it, and the supervisor aborts with the store write
log and the final artifact both untouched. -/
theorem C4_empty_input_fails (caps : Caps) :
    run_agents (pipeline caps) c4init = (c4st2 caps, some AgentErr.emptyData) ∧
    (run_agents (pipeline caps) c4init).2 ≠ none ∧
    (run_agents (pipeline caps) c4init).1.storeWrites = [] ∧
    (run_agents (pipeline caps) c4init).1.finalSelected = [] := by
  have hrun : run_agents (pipeline caps) c4init = (c4st2 caps, some AgentErr.emptyData) := by
    simp only [pipeline, run_agents, c4_stage1, c4_stage2, c4_stage3]
  refine ⟨hrun, ?_, ?_, ?_⟩
  · rw [hrun]; simp
  · rw [hrun]; rfl
  · rw [hrun]; rfl

end HireSense
